import Mathlib

set_option maxHeartbeats 1600000
set_option maxRecDepth 8192

/-!
# Verification of the SyndicateIntelligence football bot against its specification

This development shallowly embeds the program in `src/main.py` (a football data
automation bot: provider-payload normalisation, content generation, and a
posting orchestrator) and settles the frozen claims about it.

Conventions of the embedding:
* Python dictionaries coming from the provider are modelled as structures whose
  fields are `Option`-valued exactly where the source uses `dict.get` with a
  default (a `none` field models an absent key).
* Python string operations are modelled on `String`/`List Char`
  (`str.strip` becomes `pyStrip`, substring tests become list-infix tests).
* `datetime.strptime(s, "%Y%m%d%H%M%S")` is modelled by `strptimeFull`,
  reproducing CPython `_strptime` semantics: each directive is a regex
  alternation of candidate widths, matched left to right with backtracking,
  the whole string must be consumed, and the resulting fields are then
  validated by the `datetime` constructor (year ≥ 1, day within month,
  second ≤ 59).
* Wall-clock instants are modelled as integer seconds on the proleptic
  Gregorian calendar (the bot pins everything to the GMT zone, offset 0).
* Network effects are modelled by oracles: provider responses are inputs,
  outbound posts are collected in a trace, and the Telegram send result is an
  oracle consulted per send.
-/

/-! ## Python string helpers -/

/-- One step of Python `str.strip`: drop leading whitespace. -/
def stripLeftList (l : List Char) : List Char :=
  l.dropWhile Char.isWhitespace

/-- Python `str.strip` on a character list: drop leading and trailing
whitespace. -/
def pyStripList (l : List Char) : List Char :=
  ((stripLeftList l).reverse.dropWhile Char.isWhitespace).reverse

/-- Python `str.strip` (the source only strips ASCII/unicode whitespace at the
ends of the message templates). -/
def pyStrip (s : String) : String :=
  ⟨pyStripList s.data⟩

/-- Substring test (Python `needle in hay`), as a Bool. -/
def containsB (hay needle : String) : Bool :=
  decide (needle.data <:+: hay.data)

/-- Python `s[:14]`. -/
def take14 (s : String) : String :=
  ⟨s.data.take 14⟩

/-- Zero-padded two-digit rendering used by `strftime("%H:%M GMT")`. -/
def pad2 (n : Nat) : String :=
  if n < 10 then "0" ++ toString n else toString n

/-! ## CPython `strptime("%Y%m%d%H%M%S")` model -/

/-- Numeric value of a decimal digit character. -/
def digitVal (c : Char) : Option Nat :=
  if c.isDigit then some (c.toNat - 48) else none

/-- Consume exactly one digit. -/
def take1 (l : List Char) : Option (Nat × List Char) :=
  match l with
  | c :: r => (digitVal c).map (fun d => (d, r))
  | [] => none

/-- Consume exactly two digits. -/
def take2 (l : List Char) : Option (Nat × List Char) :=
  match l with
  | c1 :: c2 :: r =>
    match digitVal c1, digitVal c2 with
    | some d1, some d2 => some (10 * d1 + d2, r)
    | _, _ => none
  | _ => none

/-- Consume exactly four digits (the `%Y` directive). -/
def take4 (l : List Char) : Option (Nat × List Char) :=
  match take2 l with
  | some (hi, r) =>
    match take2 r with
    | some (lo, r') => some (100 * hi + lo, r')
    | none => none
  | none => none

/-- Keep a candidate only if its value lies in `[lo, hi]`. -/
def candInRange (lo hi : Nat) (t : Option (Nat × List Char)) :
    List (Nat × List Char) :=
  match t with
  | some (v, r) => if lo ≤ v ∧ v ≤ hi then [(v, r)] else []
  | none => []

/-- A two-digit candidate whose first character is `'0'` (regex `0[1-9]`). -/
def candZeroPad (l : List Char) : List (Nat × List Char) :=
  match l with
  | '0' :: c :: r =>
    match digitVal c with
    | some d => if 1 ≤ d then [(d, r)] else []
    | none => []
  | _ => []

/-- A space-padded day candidate (regex `· [1-9]`, CPython allows `" 5"`). -/
def candSpacePad (l : List Char) : List (Nat × List Char) :=
  match l with
  | ' ' :: c :: r =>
    match digitVal c with
    | some d => if 1 ≤ d then [(d, r)] else []
    | none => []
  | _ => []

/-- `%m` candidates, in CPython regex alternation order `1[0-2]|0[1-9]|[1-9]`. -/
def candsMonth (l : List Char) : List (Nat × List Char) :=
  candInRange 10 12 (take2 l) ++ candZeroPad l ++ candInRange 1 9 (take1 l)

/-- `%d` candidates, order `3[01]|[1-2]\d|0[1-9]|[1-9]| [1-9]`. -/
def candsDay (l : List Char) : List (Nat × List Char) :=
  candInRange 30 31 (take2 l) ++ candInRange 10 29 (take2 l) ++
    candZeroPad l ++ candInRange 1 9 (take1 l) ++ candSpacePad l

/-- `%H` candidates, order `2[0-3]|[0-1]\d|\d`. -/
def candsHour (l : List Char) : List (Nat × List Char) :=
  candInRange 20 23 (take2 l) ++ candInRange 0 19 (take2 l) ++
    candInRange 0 9 (take1 l)

/-- `%M` candidates, order `[0-5]\d|\d`. -/
def candsMinute (l : List Char) : List (Nat × List Char) :=
  candInRange 0 59 (take2 l) ++ candInRange 0 9 (take1 l)

/-- `%S` candidates, order `6[0-1]|[0-5]\d|\d`. -/
def candsSecond (l : List Char) : List (Nat × List Char) :=
  candInRange 60 61 (take2 l) ++ candInRange 0 59 (take2 l) ++
    candInRange 0 9 (take1 l)

/-- The six timestamp fields produced by `strptime("%Y%m%d%H%M%S")`. -/
structure DateFields where
  year : Nat
  month : Nat
  day : Nat
  hour : Nat
  minute : Nat
  second : Nat
deriving DecidableEq, Repr

/-- Regex phase of `strptime(s, "%Y%m%d%H%M%S")`: leftmost match with
backtracking. The engine stops at the first completion of the whole pattern
(the unconsumed remainder is returned alongside the fields; CPython raises
afterwards if it is nonempty, without resuming the search). -/
def strptimeRegex (s : String) : Option (DateFields × List Char) :=
  match take4 s.data with
  | none => none
  | some (y, r0) =>
    (candsMonth r0).findSome? fun (mo, r1) =>
    (candsDay r1).findSome? fun (d, r2) =>
    (candsHour r2).findSome? fun (h, r3) =>
    (candsMinute r3).findSome? fun (mi, r4) =>
    (candsSecond r4).head?.map fun (sec, r5) =>
    (⟨y, mo, d, h, mi, sec⟩, r5)

/-- Leap-year test of the Gregorian calendar. -/
def isLeap (y : Nat) : Bool :=
  y % 4 = 0 && (y % 100 ≠ 0 || y % 400 = 0)

/-- Days in a month (31 for out-of-range month numbers, unreachable after the
regex phase). -/
def daysInMonth (y m : Nat) : Nat :=
  if m = 2 then (if isLeap y then 29 else 28)
  else if m = 4 ∨ m = 6 ∨ m = 9 ∨ m = 11 then 30
  else 31

/-- Validation performed by the `datetime` constructor after the regex phase:
`MINYEAR ≤ year`, the day must exist in the month, and seconds stay below 60. -/
def validFields (f : DateFields) : Bool :=
  1 ≤ f.year && f.day ≤ daysInMonth f.year f.month && f.second ≤ 59

/-- Full model of `datetime.strptime(s, "%Y%m%d%H%M%S")`: `none` models the
`ValueError` caught by the source (pattern mismatch, unconverted trailing
data, or constructor validation). -/
def strptimeFull (s : String) : Option DateFields :=
  (strptimeRegex s).bind fun fr =>
    if fr.2 = [] && validFields fr.1 then some fr.1 else none

/-- Days from 0001-01-01 to the start of year `y` (proleptic Gregorian). -/
def daysBeforeYear (y : Nat) : Nat :=
  let p := y - 1
  365 * p + p / 4 + p / 400 - p / 100

/-- Days from the start of the year to the start of month `m`. -/
def daysBeforeMonth (y m : Nat) : Nat :=
  ((List.range (m - 1)).map (fun i => daysInMonth y (i + 1))).sum

/-- Absolute second count of a GMT timestamp (the bot pins all datetimes to
`pytz.timezone('GMT')`, offset zero). -/
def toSeconds (f : DateFields) : Nat :=
  ((daysBeforeYear f.year + daysBeforeMonth f.year f.month + (f.day - 1)) * 24
      + f.hour) * 3600
    + f.minute * 60 + f.second

/-! ## Data model of the provider payload (`FootballAPI`) -/

/-- One entry of the `T1`/`T2` team arrays of a provider event. -/
structure Team where
  Nm : Option String
  Rnk : Option Int
deriving DecidableEq, Repr

/-- One provider event (`Events` element); `none` fields model absent keys. -/
structure Event where
  Eid : Option String
  T1 : Option (List Team)
  T2 : Option (List Team)
  Tr1 : Option String
  Tr2 : Option String
  Eps : Option String
  Esd : Option String
deriving DecidableEq, Repr

/-- One provider stage (competition grouping). -/
structure Stage where
  Snm : Option String
  Cnm : Option String
  Sid : Option String
  Events : List Event
deriving DecidableEq, Repr

/-- The normalised match record built by `FootballAPI._parse_matches`. -/
structure Match where
  id : String
  competition : String
  country : String
  home_team : String
  away_team : String
  home_score : String
  away_score : String
  status : String
  start_time : String
  start_time_raw : String
  is_live : Bool
  minute : String
  is_major : Bool
  home_position : Option Int
  away_position : Option Int
deriving DecidableEq, Repr

/-- `MAJOR_COMPETITIONS` from the configuration section. -/
def MAJOR_COMPETITIONS : List String :=
  ["Premier League", "La Liga", "Serie A", "Bundesliga",
   "Ligue 1", "Champions League", "Europa League",
   "World Cup", "Euro", "FA Cup", "Copa del Rey"]

/-- `FootballAPI._is_major_match`: case-insensitive substring test against the
major-competition keywords. -/
def is_major_match (competition : String) : Bool :=
  MAJOR_COMPETITIONS.any fun major =>
    containsB competition.toLower major.toLower

/-- `FootballAPI._get_match_status`: map the provider `Eps` code to a status
string (the code itself when unmapped, `"Unknown"` when empty). -/
def get_match_status (eps : String) : String :=
  if eps = "NS" then "Upcoming"
  else if eps = "HT" then "Half Time"
  else if eps = "1H" then "First Half"
  else if eps = "2H" then "Second Half"
  else if eps = "FT" then "Finished"
  else if eps = "AET" then "After Extra Time"
  else if eps = "PEN" then "Penalties"
  else if eps = "POST" then "Postponed"
  else if eps = "CANC" then "Cancelled"
  else if eps = "ABD" then "Abandoned"
  else if eps = "LIVE" then "Live"
  else if eps = "" then "Unknown"
  else eps

/-- `FootballAPI._parse_time`: format the kickoff as `"HH:MM GMT"`, or the
placeholder `"TBD"` when the string is empty or `strptime` raises. -/
def parse_time (time_str : String) : String :=
  if time_str = "" then "TBD"
  else
    match strptimeFull (take14 time_str) with
    | some f => pad2 f.hour ++ ":" ++ pad2 f.minute ++ " GMT"
    | none => "TBD"

/-- Team name and rank extracted from a `T1`/`T2` array (Python guards with
`event.get('T…') and len(...) > 0`). -/
def teamInfo (ts : Option (List Team)) : String × Option Int :=
  match ts with
  | some (t :: _) => (t.Nm.getD "Unknown", t.Rnk)
  | _ => ("Unknown", none)

/-- The match record built for one event inside `FootballAPI._parse_matches`. -/
def eventToMatch (competition country : String) (ev : Event) : Match :=
  let home := teamInfo ev.T1
  let away := teamInfo ev.T2
  let eps := ev.Eps.getD ""
  { id := ev.Eid.getD ""
    competition := competition
    country := country
    home_team := home.1
    away_team := away.1
    home_score := ev.Tr1.getD "-"
    away_score := ev.Tr2.getD "-"
    status := get_match_status eps
    start_time := parse_time (ev.Esd.getD "")
    start_time_raw := ev.Esd.getD ""
    is_live := eps == "HT" || eps == "1H" || eps == "2H" || eps == "LIVE"
    minute := eps
    is_major := is_major_match competition
    home_position := home.2
    away_position := away.2 }

/-- `FootballAPI._parse_matches`: flatten every stage's events into match
records (no event is ever skipped). -/
def parse_matches (stages : List Stage) : List Match :=
  stages.flatMap fun st =>
    st.Events.map
      (eventToMatch (st.Snm.getD (st.Cnm.getD "Unknown League")) (st.Cnm.getD ""))

/-! ## `ContentGenerator.generate_prediction` -/

/-- The two branches reached when the position comparison is unavailable. -/
def predictionDefault (m : Match) : String :=
  if m.is_major then "🎯 Prediction: High-Scoring Match Expected!"
  else "🎯 Prediction: Home Team Slight Favorite"

/-- `ContentGenerator.generate_prediction`, including Python truthiness of the
positions (`None` and `0` both fail the `if home_pos and away_pos` guard). -/
def generate_prediction (m : Match) : String :=
  match m.home_position, m.away_position with
  | some hp, some ap =>
    if hp = 0 ∨ ap = 0 then predictionDefault m
    else if hp < ap then
      "🎯 Prediction: " ++ m.home_team ++ " to Win or Draw (Home Advantage)"
    else if ap < hp then
      "🎯 Prediction: " ++ m.away_team ++ " to Win (Away Form)"
    else "🎯 Prediction: Close Match - Draw Possible"
  | _, _ => predictionDefault m

/-! ## Content generators with affiliate links -/

/-- `AFFILIATE_LINKS` (insertion order of the Python dict, which iteration
preserves). -/
def AFFILIATE_LINKS : List (String × String) :=
  [("🎰 Stake", "https://stake.com/?c=GlobalScoreUpdates"),
   ("📊 Linebet", "https://linebet.com?bf=695d695c66d7a_13053616523"),
   ("🏆 1xBet", "https://ma-1xbet.com?bf=695d66e22c1b5_7531017325")]

/-- The configured affiliate URLs. -/
def affiliateUrls : List String :=
  AFFILIATE_LINKS.map Prod.snd

/-- `TELEGRAM_CHANNEL_LINK` (used in Facebook posts instead of affiliates). -/
def TELEGRAM_CHANNEL_LINK : String :=
  "https://t.me/+xAQ3DCVJa8A2ZmY8"

/-- The affiliate block appended by the
`for name, link in AFFILIATE_LINKS.items()` loop. -/
def affiliateBlock : String :=
  String.join (AFFILIATE_LINKS.map fun p => "👉 " ++ p.1 ++ ": " ++ p.2 ++ "\n")

/-- `ContentGenerator.generate_telegram_upcoming_match`: the full alert with
prediction and affiliate links, finally `str.strip`-ed. -/
def generate_telegram_upcoming_match (m : Match) : String :=
  pyStrip
    ("\n⚽ *UPCOMING MATCH ALERT* ⚽\n\n🏆 *" ++ m.competition ++
     "*\n\n🔵 *" ++ m.home_team ++ "*\n         🆚\n🔴 *" ++ m.away_team ++
     "*\n\n⏰ *Kick-off:* " ++ m.start_time ++ "\n\n" ++
     generate_prediction m ++
     "\n\n━━━━━━━━━━━━━━━━━━━━━\n\n💰 *BET NOW & WIN BIG!* 💰\n\nPlace your bets on these trusted platforms:\n\n" ++
     affiliateBlock ++
     "\n━━━━━━━━━━━━━━━━━━━━━\n\n🔔 *Join our channel for more updates!*\n📲 Turn on notifications!\n\n#Football #Betting #Prediction #LiveScore\n")

/-- `ContentGenerator.generate_facebook_teaser`: teaser templates pointing to
the Telegram channel (the source comment says "NO affiliate links!"). -/
def generate_facebook_teaser (m : Match) (post_type : String) : String :=
  if post_type = "upcoming" then
    "🔥 BIG MATCH ALERT! 🔥\n\n⚽ " ++ m.home_team ++ " 🆚 " ++ m.away_team ++
    "\n\n🏆 " ++ m.competition ++ "\n⏰ Kick-off: " ++ m.start_time ++
    "\n\nWant our EXCLUSIVE prediction and live score updates?\n\n👇 Join our Telegram for FREE insights! 👇\n📲 " ++
    TELEGRAM_CHANNEL_LINK ++
    "\n\nDon't miss out on this epic clash!\n\n#Football #MatchDay #Prediction #LiveScore"
  else if post_type = "live" then
    "⚡ LIVE NOW! ⚡\n\n⚽ " ++ m.home_team ++ " " ++ m.home_score ++ " - " ++
    m.away_score ++ " " ++ m.away_team ++ "\n\n🏆 " ++ m.competition ++
    "\n\nGet INSTANT live updates and exclusive betting tips!\n\n👇 Join our Telegram NOW! 👇\n📲 " ++
    TELEGRAM_CHANNEL_LINK ++ "\n\n#Football #LiveScore #MatchDay"
  else
    "✅ FULL TIME ✅\n\n⚽ " ++ m.home_team ++ " " ++ m.home_score ++ " - " ++
    m.away_score ++ " " ++ m.away_team ++ "\n\n🏆 " ++ m.competition ++
    "\n\nSee our next predictions and exclusive analysis!\n\n👇 Join our Telegram for MORE! 👇\n📲 " ++
    TELEGRAM_CHANNEL_LINK ++ "\n\n#Football #MatchResult #Prediction"

/-! ## The orchestrator (`FootballBot`)

External effects are represented explicitly: the two provider responses are
inputs (`none` models a failed request or a response without `Stages`), each
outbound post is recorded as a `PostAction` in the run trace, and the Telegram
API success flag for the n-th send of the run is read from the `tgOk` oracle.
-/

/-- Kinds of upstream fixture-provider requests a run can issue. -/
inductive CallKind where
  | byDate
  | live
deriving DecidableEq, Repr

/-- One outbound post handed to a channel client. -/
inductive PostAction where
  | tgDailySummary (ms : List Match)
  | fbDailyTeaser (ms : List Match)
  | tgUpcoming (m : Match)
  | fbUpcoming (m : Match)
  | tgLive (m : Match)
  | tgFinished (m : Match)
  | fbFinished (m : Match)
deriving DecidableEq, Repr

/-- Mutable state threaded through a run: the trace of posts, the
`posted_matches` set, and the number of Telegram sends so far (used to index
the send-result oracle). -/
structure RunState where
  posts : List PostAction
  posted : List String
  sends : Nat
deriving DecidableEq, Repr

/-- The initial state of `FootballBot.__init__` (`posted_matches = set()`). -/
def initState : RunState :=
  { posts := [], posted := [], sends := 0 }

/-- Result of `TelegramClient.send_message` for the next send, drawn from the
oracle, advancing the send counter and recording the post. -/
def tgSend (tgOk : Nat → Bool) (st : RunState) (a : PostAction) :
    RunState × Bool :=
  ({ st with posts := st.posts ++ [a], sends := st.sends + 1 }, tgOk st.sends)

/-- `FacebookClient.post_message`: the result is never inspected by the bot. -/
def fbPost (st : RunState) (a : PostAction) : RunState :=
  { st with posts := st.posts ++ [a] }

/-- `FootballBot._post_daily_summary`. -/
def post_daily_summary (tgOk : Nat → Bool) (st : RunState)
    (ms : List Match) : RunState :=
  if ms = [] then st
  else fbPost (tgSend tgOk st (PostAction.tgDailySummary ms)).1
    (PostAction.fbDailyTeaser ms)

/-- `FootballBot._post_upcoming_match`: de-duplicated on the match id (the
parser always populates the `id` key, so `match.get('id', ...)` returns it);
the id joins `posted_matches` only when the Telegram send succeeded, and the
Facebook teaser is posted regardless. -/
def post_upcoming_match (tgOk : Nat → Bool) (st : RunState) (m : Match) :
    RunState :=
  let match_id := m.id
  if match_id ∈ st.posted then st
  else
    let sent := tgSend tgOk st (PostAction.tgUpcoming m)
    let st' :=
      if sent.2 then { sent.1 with posted := sent.1.posted ++ [match_id] }
      else sent.1
    fbPost st' (PostAction.fbUpcoming m)

/-- `FootballBot._post_live_score` (Telegram only). -/
def post_live_score (tgOk : Nat → Bool) (st : RunState) (m : Match) :
    RunState :=
  (tgSend tgOk st (PostAction.tgLive m)).1

/-- `FootballBot._post_finished_match` (de-duplication key `"finished-" ++ id`). -/
def post_finished_match (tgOk : Nat → Bool) (st : RunState) (m : Match) :
    RunState :=
  let match_id := "finished-" ++ m.id
  if match_id ∈ st.posted then st
  else
    let sent := tgSend tgOk st (PostAction.tgFinished m)
    let st' :=
      if sent.2 then { sent.1 with posted := sent.1.posted ++ [match_id] }
      else sent.1
    fbPost st' (PostAction.fbFinished m)

/-- `FootballAPI.get_matches_by_date` at the fetch boundary: `none` models a
failed request or a payload without `Stages`; otherwise the stages are parsed. -/
def get_matches_by_date (resp : Option (List Stage)) : Option (List Match) :=
  resp.map parse_matches

/-- `FootballAPI.get_live_matches`, same boundary contract. -/
def get_live_matches (resp : Option (List Stage)) : Option (List Match) :=
  resp.map parse_matches

/-- `FootballBot._get_upcoming_matches`: keep `Upcoming` matches whose raw
start time (truncated to 14 characters) has length at least 12 and parses,
with kickoff 0.5 to 2 hours (inclusive) after `now`; parse failures are
skipped silently. `now` is the current GMT instant in seconds. -/
def get_upcoming_matches (ms : List Match) (now : Int) : List Match :=
  ms.filter fun m =>
    m.status == "Upcoming" &&
      (let start_str := take14 m.start_time_raw
       if start_str.length ≥ 12 then
         match strptimeFull start_str with
         | some f =>
           let Δ : Int := (toSeconds f : Int) - now
           decide (1800 ≤ Δ) && decide (Δ ≤ 7200)
         | none => false
       else false)

/-- Inputs of one `FootballBot.run` invocation. -/
structure RunInput where
  byDateResp : Option (List Stage)
  liveResp : Option (List Stage)
  hour : Nat
  now : Int
  tgOk : Nat → Bool

/-- Observable outcome of a run: upstream calls issued and posts sent. -/
structure RunResult where
  calls : List CallKind
  posts : List PostAction

/-- `FootballBot.run`: fetch today's matches (first upstream call), bail out
when the result is falsy, otherwise fetch live matches (second upstream call)
and execute the posting steps in source order. -/
def run (inp : RunInput) : RunResult :=
  let matchesOpt := get_matches_by_date inp.byDateResp
  match matchesOpt with
  | none => { calls := [CallKind.byDate], posts := [] }
  | some ms =>
    if ms = [] then { calls := [CallKind.byDate], posts := [] }
    else
      let major_matches := ms.filter (fun m => m.is_major)
      let live_matches := get_live_matches inp.liveResp
      let st1 :=
        if inp.hour = 8 then
          post_daily_summary inp.tgOk initState
            (if major_matches ≠ [] then major_matches else ms.take 10)
        else initState
      let upcoming := get_upcoming_matches major_matches inp.now
      let st2 := (upcoming.take 3).foldl (post_upcoming_match inp.tgOk) st1
      let st3 :=
        match live_matches with
        | some lv =>
          if lv = [] then st2
          else
            ((lv.filter (fun m => m.is_major)).take 2).foldl
              (post_live_score inp.tgOk) st2
        | none => st2
      let finished :=
        ms.filter (fun m => m.status == "Finished" && m.is_major)
      let st4 := (finished.take 2).foldl (post_finished_match inp.tgOk) st3
      { calls := [CallKind.byDate, CallKind.live], posts := st4.posts }

/-! ## Spec-modelled components absent from `src/main.py` -/

/-- Modelled from the spec: the curated "powerhouse" list of elite clubs used
by the Classifier (§4.2) and the Analysis Engine (§4.3). No such list exists
anywhere in `src/main.py`; the spec does not enumerate its members, so a
representative sample of elite clubs stands in for it. -/
def POWERHOUSES : List String :=
  ["Real Madrid", "Barcelona", "Manchester City", "Liverpool",
   "Bayern Munich", "Paris Saint-Germain"]

/-- Modelled from the spec: the powerhouse test of the Classifier (§4.2),
membership of a team name in the curated list. -/
def isPowerhouse (team : String) : Bool :=
  POWERHOUSES.contains team

/-- Modelled from the spec: a finished-match result record consumed by the
Ledger's `settle` (§4.5); `src/main.py` has no ledger subsystem at all. -/
structure Fixture where
  home : String
  away : String
  home_goals : Nat
  away_goals : Nat
  finished : Bool
deriving DecidableEq, Repr

/-- Modelled from the spec: the recorded market pick of a ledger entry (§4.5
gives three market families). The `over` threshold is kept in half-goals
(5 stands for "Over 2.5"). -/
inductive Pick where
  | winPick (team : String)
  | overPick (halfGoals : Nat)
  | bttsPick
deriving DecidableEq, Repr

/-- Modelled from the spec: the persisted ledger, a map keyed by the
`(home_name, away_name)` pair with at most one entry per key (§3), hence a
function into `Option`. -/
def Ledger : Type :=
  String × String → Option Pick

/-- Modelled from the spec: the win predicate of `settle` (§4.5): a Win pick
succeeds when the named team outscored the opponent, an Over pick when the
combined goals exceed the threshold, a Both-Teams pick when both sides
scored. -/
def pickWins (p : Pick) (f : Fixture) : Bool :=
  match p with
  | Pick.winPick t =>
    if t = f.home then decide (f.away_goals < f.home_goals)
    else if t = f.away then decide (f.home_goals < f.away_goals)
    else false
  | Pick.overPick halfGoals => decide (halfGoals < 2 * (f.home_goals + f.away_goals))
  | Pick.bttsPick => decide (0 < f.home_goals) && decide (0 < f.away_goals)

/-- Modelled from the spec: a verified-win record emitted by `settle` (§4.5). -/
structure WinRecord where
  home : String
  away : String
  pick : Pick
deriving DecidableEq, Repr

/-- Modelled from the spec: settlement of a single match (§4.5): only a
finished match with a ledger entry is evaluated; on a win the record is
emitted and the entry deleted, otherwise the ledger is untouched. -/
def settleOne (led : Ledger) (f : Fixture) : Option WinRecord × Ledger :=
  if f.finished then
    match led (f.home, f.away) with
    | some p =>
      if pickWins p f then
        (some ⟨f.home, f.away, p⟩,
         fun k => if k = (f.home, f.away) then none else led k)
      else (none, led)
    | none => (none, led)
  else (none, led)

/-- Modelled from the spec: `settle(matches)` (§4.5), folding `settleOne`
over the finished-match set and collecting the verified wins. -/
def settle (led : Ledger) : List Fixture → List WinRecord × Ledger
  | [] => ([], led)
  | f :: fs =>
    ((settleOne led f).1.toList ++ (settle (settleOne led f).2 fs).1,
     (settle (settleOne led f).2 fs).2)

/-! ## Helper lemmas -/

/-- A nonempty infix none of whose characters satisfy `p` survives
`dropWhile p`. -/
theorem infix_dropWhile_of_no_sat (p : Char → Bool) (u : List Char)
    (hne : u ≠ []) (hu : ∀ c ∈ u, p c = false) :
    ∀ l : List Char, u <:+: l → u <:+: l.dropWhile p := by
  intro l
  induction l with
  | nil =>
    intro h
    rw [List.infix_nil] at h
    exact absurd h hne
  | cons c t ih =>
    intro h
    by_cases hp : p c = true
    · rw [List.dropWhile_cons, if_pos hp]
      apply ih
      rcases List.infix_cons_iff.mp h with hpre | hinf
      · cases u with
        | nil => exact absurd rfl hne
        | cons a u' =>
          obtain ⟨s, hs⟩ := hpre
          have hac : a = c := by
            have := congrArg (fun xs => List.head? xs) hs
            simpa using this
          have : p a = false := hu a (List.mem_cons_self a u')
          rw [hac, hp] at this
          exact absurd this (by simp)
      · exact hinf
    · rw [List.dropWhile_cons, if_neg hp]
      exact h

/-- A nonempty, whitespace-free infix survives Python `str.strip`. -/
theorem infix_pyStripList (u l : List Char) (hne : u ≠ [])
    (hu : ∀ c ∈ u, c.isWhitespace = false) (h : u <:+: l) :
    u <:+: pyStripList l := by
  unfold pyStripList stripLeftList
  have h1 : u <:+: l.dropWhile Char.isWhitespace :=
    infix_dropWhile_of_no_sat Char.isWhitespace u hne hu l h
  have h2 : u.reverse <:+: (l.dropWhile Char.isWhitespace).reverse :=
    h1.reverse
  have hne' : u.reverse ≠ [] := by simpa using hne
  have hu' : ∀ c ∈ u.reverse, c.isWhitespace = false := fun c hc =>
    hu c (List.mem_reverse.mp hc)
  have h3 :=
    infix_dropWhile_of_no_sat Char.isWhitespace u.reverse hne' hu' _ h2
  have h4 := h3.reverse
  simpa using h4

/-- A string containing a character the other lacks is not an infix of it. -/
theorem not_infix_of_mem_not_mem {c : Char} {u l : List Char}
    (hcu : c ∈ u) (hcl : c ∉ l) : ¬ u <:+: l :=
  fun h => hcl (h.subset hcu)

/-- Containment of one string in another (Python `needle in hay`), as the
proposition behind `containsB`. -/
def strContainsP (hay needle : String) : Prop :=
  needle.data <:+: hay.data

instance (hay needle : String) : Decidable (strContainsP hay needle) :=
  List.decidableInfix needle.data hay.data

/-! ## Concrete fixtures used by counterexamples and witnesses -/

/-- A Premier League match with both ranks present, home ranked better. -/
def mArsenal : Match :=
  { id := "986425", competition := "Premier League", country := "England",
    home_team := "Arsenal", away_team := "Chelsea",
    home_score := "-", away_score := "-", status := "Upcoming",
    start_time := "TBD", start_time_raw := "20250101093000",
    is_live := false, minute := "NS", is_major := true,
    home_position := some 1, away_position := some 2 }

/-- The same fixture with the two ranks swapped. -/
def mArsenalSwapped : Match :=
  { mArsenal with home_position := some 2, away_position := some 1 }

/-- The same fixture with unrelated fields changed (id, scores, status). -/
def mArsenalOtherDay : Match :=
  { mArsenal with id := "986426", status := "Finished",
                  home_score := "2", away_score := "1" }

/-- C1 counterexample: a spec-modelled powerhouse at home against a
non-powerhouse, but ranked worse, so the code picks the away side. -/
def mRealElche : Match :=
  { mArsenal with home_team := "Real Madrid", away_team := "Elche",
                  competition := "La Liga", country := "Spain",
                  home_position := some 5, away_position := some 1 }

/-- A powerhouse mismatch with the home side ranked better and the
major-competition tag set. -/
def mRealBetter : Match :=
  { mRealElche with home_position := some 1, away_position := some 5 }

/-! ## C1 — determinism of the prediction function -/

/-- C1 counterexample: the claim says the prediction output depends only on
the team names and the classifier tags. The two matches below agree on the
names and on `is_major` (the only classifier-derived tag in the source) yet
their predictions differ, because `generate_prediction` also reads the league
positions. -/
theorem c1_prediction_reads_positions :
    mArsenal.home_team = mArsenalSwapped.home_team ∧
    mArsenal.away_team = mArsenalSwapped.away_team ∧
    mArsenal.is_major = mArsenalSwapped.is_major ∧
    generate_prediction mArsenal ≠ generate_prediction mArsenalSwapped := by
  refine ⟨rfl, rfl, rfl, ?_⟩
  decide

/-- C1 (amended): `ContentGenerator.generate_prediction` is a pure function of
the match record: it depends only on the team names, the two league positions
and the `is_major` tag — never on wall-clock time, randomness, or prior run
state — so equal inputs always produce byte-identical output. -/
theorem c1_prediction_deterministic (m₁ m₂ : Match)
    (hh : m₁.home_team = m₂.home_team)
    (ha : m₁.away_team = m₂.away_team)
    (hp : m₁.home_position = m₂.home_position)
    (hq : m₁.away_position = m₂.away_position)
    (hmaj : m₁.is_major = m₂.is_major) :
    generate_prediction m₁ = generate_prediction m₂ := by
  unfold generate_prediction predictionDefault
  rw [hh, ha, hp, hq, hmaj]

/-- C1 witness: two records equal on the five relevant fields but differing in
id, status and scores receive the same prediction. -/
theorem c1_prediction_deterministic_witness :
    generate_prediction mArsenal = generate_prediction mArsenalOtherDay :=
  c1_prediction_deterministic mArsenal mArsenalOtherDay rfl rfl rfl rfl rfl

/-! ## C3 — events with unparseable timestamps -/

/-- A stage whose single event has an unparseable kickoff timestamp. -/
def stageBadTime : Stage :=
  { Snm := some "Some League", Cnm := some "Niue", Sid := some "s77",
    Events := [{ Eid := some "E9",
                 T1 := some [{ Nm := some "Aub", Rnk := some 3 }],
                 T2 := some [{ Nm := some "Bel", Rnk := some 4 }],
                 Tr1 := none, Tr2 := none,
                 Eps := some "NS", Esd := some "x" }] }

/-- C3 counterexample: the event whose timestamp `"x"` cannot be parsed is NOT
dropped by `_parse_matches`; it is kept with the placeholder start time
`"TBD"`. -/
theorem c3_unparseable_event_kept :
    (parse_matches [stageBadTime]).map (fun m => (m.home_team, m.start_time))
      = [("Aub", "TBD")] ∧
    (parse_matches [stageBadTime]).length = 1 := by
  constructor
  · decide
  · decide

/-- C3 (amended): the normalizer drops nothing — it emits exactly one match
record per provider event — and an event whose timestamp does not parse gets
the placeholder start time `"TBD"` instead of being excluded. -/
theorem c3_no_event_dropped (stages : List Stage) :
    (parse_matches stages).length
        = (stages.map (fun st => st.Events.length)).sum ∧
    ∀ s : String, strptimeFull (take14 s) = none → parse_time s = "TBD" := by
  constructor
  · induction stages with
    | nil => rfl
    | cons st t ih =>
      simp only [parse_matches, List.flatMap_cons, List.length_append,
        List.length_map, List.map_cons, List.sum_cons] at ih ⊢
      omega
  · intro s h
    unfold parse_time
    by_cases hs : s = ""
    · simp [hs]
    · simp [hs, h]

/-- C3 witness: the amended claim evaluated on the concrete one-event stage
and on the concrete unparseable timestamp `"x"`. -/
theorem c3_no_event_dropped_witness :
    (parse_matches [stageBadTime]).length
        = ([stageBadTime].map (fun st => st.Events.length)).sum ∧
    parse_time "x" = "TBD" :=
  ⟨(c3_no_event_dropped [stageBadTime]).1,
   (c3_no_event_dropped [stageBadTime]).2 "x" (by decide)⟩

/-! ## C4 — branch precedence of the analysis -/

/-- C4 counterexample: `generate_prediction` has no powerhouse branch at all.
For a match whose home team is a (spec-modelled) powerhouse and whose away
team is not, the position branch fires first and recommends the AWAY side,
not a home-biased market. -/
theorem c4_no_powerhouse_branch :
    isPowerhouse mRealElche.home_team = true ∧
    isPowerhouse mRealElche.away_team = false ∧
    generate_prediction mRealElche
      = "🎯 Prediction: Elche to Win (Away Form)" ∧
    generate_prediction mRealElche
      ≠ "🎯 Prediction: Real Madrid to Win or Draw (Home Advantage)" ∧
    generate_prediction mRealElche
      ≠ "🎯 Prediction: Home Team Slight Favorite" := by
  refine ⟨by decide, by decide, by decide, by decide, by decide⟩

/-- C4 (amended): the analysis does evaluate its branches in a fixed
precedence where the first matching branch wins, but the first branch compares
league positions, not powerhouse status: whenever both positions are present
(and truthy) and the home side ranks strictly better, the home-advantage pick
is returned, taking precedence over the `is_major` and default branches. -/
theorem c4_rank_branch_first (m : Match) (hp ap : Int)
    (h1 : m.home_position = some hp) (h2 : m.away_position = some ap)
    (h3 : hp ≠ 0) (h4 : ap ≠ 0) (h5 : hp < ap) :
    generate_prediction m
      = "🎯 Prediction: " ++ m.home_team ++ " to Win or Draw (Home Advantage)" := by
  unfold generate_prediction
  rw [h1, h2]
  simp [h3, h4, h5]

/-- C4 witness: the rank branch wins over the `is_major` branch on a concrete
major-competition match (its home side a powerhouse ranked better, so here the
outcome happens to agree with the spec's intent). -/
theorem c4_rank_branch_first_witness :
    generate_prediction mRealBetter
      = "🎯 Prediction: " ++ mRealBetter.home_team ++ " to Win or Draw (Home Advantage)" :=
  c4_rank_branch_first mRealBetter 1 5 rfl rfl (by decide) (by decide) (by decide)

/-! ## C6 — missing team rank -/

/-- A stage whose single event lacks the home `Rnk` key. -/
def stageNoRank : Stage :=
  { Snm := some "Obscure Cup", Cnm := some "Atlantis", Sid := some "s78",
    Events := [{ Eid := some "E10",
                 T1 := some [{ Nm := some "Xanthi", Rnk := none }],
                 T2 := some [{ Nm := some "Ydra", Rnk := some 7 }],
                 Tr1 := none, Tr2 := none,
                 Eps := some "NS", Esd := some "20250101093000" }] }

/-- C6 counterexample: a team whose rank is absent does NOT receive an integer
sentinel (such as 50); the normalizer stores the absent marker `None`
(`none`) in `home_position`, while the event itself is still kept. -/
theorem c6_missing_rank_is_none :
    (parse_matches [stageNoRank]).map (fun m => m.home_position) = [none] ∧
    (parse_matches [stageNoRank]).length = 1 := by
  constructor
  · decide
  · decide

/-- C6 (amended): a team whose rank key is absent from the provider event gets
`None` (no numeric sentinel) as its position, and the event still parses into
a match record without any failure. -/
theorem c6_missing_rank_kept (competition country : String) (ev : Event)
    (t : Team) (rest : List Team)
    (h1 : ev.T1 = some (t :: rest)) (h2 : t.Rnk = none) :
    (eventToMatch competition country ev).home_position = none := by
  simp [eventToMatch, teamInfo, h1, h2]

/-- C6 witness: the amended claim evaluated on the concrete rank-less event. -/
theorem c6_missing_rank_kept_witness :
    (eventToMatch "Obscure Cup" "Atlantis"
        { Eid := some "E10",
          T1 := some [{ Nm := some "Xanthi", Rnk := none }],
          T2 := some [{ Nm := some "Ydra", Rnk := some 7 }],
          Tr1 := none, Tr2 := none,
          Eps := some "NS", Esd := some "20250101093000" }).home_position
      = none :=
  c6_missing_rank_kept "Obscure Cup" "Atlantis" _
    { Nm := some "Xanthi", Rnk := none } [] rfl rfl

/-! ## C10 — the upcoming-match selector -/

/-- An `Upcoming` match whose raw start time has only 12 digits, which CPython
`strptime` still parses (as 09:03:00, splitting the trailing `30` across the
minute and second directives). -/
def mTwelveDigits : Match :=
  { mArsenal with id := "986427", start_time_raw := "202501010930" }

/-- 2025-01-01 08:00:00 GMT as the current instant. -/
def now0801 : Int :=
  (toSeconds ⟨2025, 1, 1, 8, 0, 0⟩ : Int)

/-- C10 counterexample: the claim admits only raw times that parse as 14-digit
timestamps, but `_get_upcoming_matches` also keeps this match whose raw start
time is 12 characters long (parsed as 09:03:00, which lies in the half-open
posting window after 08:00:00). -/
theorem c10_twelve_digit_time_selected :
    get_upcoming_matches [mTwelveDigits] now0801 = [mTwelveDigits] ∧
    mTwelveDigits.start_time_raw.length = 12 := by
  constructor
  · decide
  · decide

/-- C10 (amended): the selector returns exactly the input matches whose status
is `Upcoming` and whose raw start time, truncated to 14 characters, has length
at least 12 and parses under CPython's flexible-width `%Y%m%d%H%M%S` rules
(so some 12- and 13-character strings qualify as well), with the parsed
kickoff between 0.5 and 2 hours inclusive after `now`; parse failures are
silently excluded. -/
theorem c10_upcoming_characterisation (ms : List Match) (now : Int) (m : Match) :
    m ∈ get_upcoming_matches ms now ↔
      m ∈ ms ∧ m.status = "Upcoming" ∧ 12 ≤ (take14 m.start_time_raw).length ∧
      ∃ f, strptimeFull (take14 m.start_time_raw) = some f ∧
        1800 ≤ (toSeconds f : Int) - now ∧ (toSeconds f : Int) - now ≤ 7200 := by
  unfold get_upcoming_matches
  rw [List.mem_filter]
  constructor
  · rintro ⟨hm, hb⟩
    refine ⟨hm, ?_⟩
    simp only [Bool.and_eq_true, beq_iff_eq] at hb
    obtain ⟨hstat, hrest⟩ := hb
    refine ⟨hstat, ?_⟩
    by_cases hlen : 12 ≤ (take14 m.start_time_raw).length
    · refine ⟨hlen, ?_⟩
      rw [if_pos hlen] at hrest
      cases hf : strptimeFull (take14 m.start_time_raw) with
      | none => rw [hf] at hrest; exact absurd hrest (by simp)
      | some f =>
        rw [hf] at hrest
        simp only [Bool.and_eq_true, decide_eq_true_eq] at hrest
        exact ⟨f, rfl, hrest.1, hrest.2⟩
    · rw [if_neg hlen] at hrest
      exact absurd hrest (by simp)
  · rintro ⟨hm, hstat, hlen, f, hf, h1, h2⟩
    refine ⟨hm, ?_⟩
    simp only [Bool.and_eq_true, beq_iff_eq]
    refine ⟨hstat, ?_⟩
    rw [if_pos hlen, hf]
    simp only [Bool.and_eq_true, decide_eq_true_eq]
    exact ⟨h1, h2⟩

/-- C10 witness: the characterisation instantiated at a concrete selected
match (both directions of the equivalence on concrete data). -/
theorem c10_upcoming_characterisation_witness :
    mTwelveDigits ∈ get_upcoming_matches [mTwelveDigits] now0801 :=
  (c10_upcoming_characterisation [mTwelveDigits] now0801 mTwelveDigits).mpr
    ⟨by decide, by decide, by decide,
     ⟨2025, 1, 1, 9, 3, 0⟩, by decide, by decide, by decide⟩

/-! ## C5 — upstream call budget -/

/-- A provider response with one major-league event (parses to one match). -/
def stagePremier : Stage :=
  { Snm := some "Premier League", Cnm := some "England", Sid := some "s1",
    Events := [{ Eid := some "986425",
                 T1 := some [{ Nm := some "Arsenal", Rnk := some 1 }],
                 T2 := some [{ Nm := some "Chelsea", Rnk := some 2 }],
                 Tr1 := none, Tr2 := none,
                 Eps := some "NS", Esd := some "20250101093000" }] }

/-- A run input whose by-date fetch succeeds with one match and whose live
fetch also returns data. -/
def inpTwoCalls : RunInput :=
  { byDateResp := some [stagePremier], liveResp := some [stagePremier],
    hour := 9, now := 0, tgOk := fun _ => true }

/-- C5 counterexample: there is no budget guard. After the by-date fetch has
already been made (and succeeded), the run still issues a second upstream call
(the live-matches fetch), and that second fetch returns data rather than an
empty short-circuited result. -/
theorem c5_second_upstream_call_issued :
    (run inpTwoCalls).calls = [CallKind.byDate, CallKind.live] ∧
    (get_live_matches inpTwoCalls.liveResp).map List.length = some 1 := by
  constructor
  · decide
  · decide

/-- C5 (amended): a run issues exactly one upstream request (the by-date
fetch) when that fetch yields no matches, and exactly two upstream requests
(by-date, then live) otherwise; no per-run budget counter short-circuits the
second call. -/
theorem c5_run_calls (inp : RunInput) :
    (run inp).calls =
      match get_matches_by_date inp.byDateResp with
      | none => [CallKind.byDate]
      | some [] => [CallKind.byDate]
      | some (_ :: _) => [CallKind.byDate, CallKind.live] := by
  unfold run
  cases h : get_matches_by_date inp.byDateResp with
  | none => rfl
  | some ms =>
    cases ms with
    | nil => simp
    | cons a t => simp

/-! ## C7 — empty fetch skips the run -/

/-- C7: when the fetch boundary yields a falsy match list (a failed or
malformed response, or a response parsing to no matches), the run posts
nothing, generates no content, issues no further upstream call, and returns
normally (the embedding is a total function). -/
theorem c7_empty_fetch_skips_posting (inp : RunInput)
    (h : get_matches_by_date inp.byDateResp = none ∨
         get_matches_by_date inp.byDateResp = some []) :
    (run inp).posts = [] ∧ (run inp).calls = [CallKind.byDate] := by
  unfold run
  rcases h with h | h <;> rw [h] <;> simp

/-- C7 witness: a concrete run whose by-date request failed. -/
theorem c7_empty_fetch_skips_posting_witness :
    (run { byDateResp := none, liveResp := some [stagePremier],
           hour := 8, now := 0, tgOk := fun _ => true }).posts = [] ∧
    (run { byDateResp := none, liveResp := some [stagePremier],
           hour := 8, now := 0, tgOk := fun _ => true }).calls
      = [CallKind.byDate] :=
  c7_empty_fetch_skips_posting _ (Or.inl rfl)

/-! ## C8 — at-most-once posting of an upcoming match -/

/-- C8: `_post_upcoming_match` posts a given match identity at most once per
run: a match whose id is already in `posted_matches` triggers no send at all
and leaves the state (including the posted set) unchanged, and a successful
Telegram send adds the id to the posted set. -/
theorem c8_post_upcoming_once (tgOk : Nat → Bool) (st : RunState) (m : Match) :
    (m.id ∈ st.posted → post_upcoming_match tgOk st m = st) ∧
    (m.id ∉ st.posted → tgOk st.sends = true →
      m.id ∈ (post_upcoming_match tgOk st m).posted) := by
  constructor
  · intro h
    unfold post_upcoming_match
    rw [if_pos h]
  · intro h hok
    unfold post_upcoming_match tgSend fbPost
    rw [if_neg h]
    simp [hok]

/-- C8 witness: a concrete already-posted id is skipped with the state
unchanged, and a concrete fresh id lands in the posted set after a successful
send. -/
theorem c8_post_upcoming_once_witness :
    post_upcoming_match (fun _ => true)
        { posts := [], posted := ["986425"], sends := 3 } mArsenal
      = { posts := [], posted := ["986425"], sends := 3 } ∧
    mArsenal.id ∈ (post_upcoming_match (fun _ => true) initState mArsenal).posted :=
  ⟨(c8_post_upcoming_once (fun _ => true)
      { posts := [], posted := ["986425"], sends := 3 } mArsenal).1 (by decide),
   (c8_post_upcoming_once (fun _ => true) initState mArsenal).2 (by decide) rfl⟩

/-! ## C9 — affiliate links in Telegram only -/

/-- Auxiliary: a character missing from both sides is missing from the
concatenation. -/
theorem not_mem_append_of {c : Char} {l1 l2 : List Char}
    (h1 : c ∉ l1) (h2 : c ∉ l2) : c ∉ l1 ++ l2 := by
  simp [List.mem_append, h1, h2]

/-- A nonempty whitespace-free infix survives `str.strip`, stated on
strings. -/
theorem strContains_pyStrip (s u : String) (hne : u.data ≠ [])
    (hws : ∀ c ∈ u.data, c.isWhitespace = false) (h : u.data <:+: s.data) :
    strContainsP (pyStrip s) u :=
  infix_pyStripList u.data s.data hne hws h

/-- Any nonempty whitespace-free infix of the affiliate block appears in every
generated Telegram upcoming-match message. -/
theorem tg_contains_of_infix_block (m : Match) (u : String)
    (hne : u.data ≠ []) (hws : ∀ c ∈ u.data, c.isWhitespace = false)
    (hblk : u.data <:+: affiliateBlock.data) :
    strContainsP (generate_telegram_upcoming_match m) u := by
  unfold generate_telegram_upcoming_match
  apply strContains_pyStrip _ _ hne hws
  refine hblk.trans ?_
  simp only [String.data_append]
  exact List.infix_append _ _ _

/-- C9 (amended): every Telegram upcoming-match message contains all of the
configured affiliate URLs, and for any match whose rendered fields are free of
the character `'='` (each affiliate URL contains one, so in particular the
fields embed no affiliate URL) the Facebook teaser of every post type contains
none of them. The restriction on the fields is necessary: see the
counterexample where a team name itself embeds an affiliate URL. -/
theorem c9_affiliates_telegram_only (m : Match) (post_type : String) :
    (∀ url ∈ affiliateUrls, strContainsP (generate_telegram_upcoming_match m) url) ∧
    (('=' ∉ m.home_team.data ∧ '=' ∉ m.away_team.data ∧
      '=' ∉ m.competition.data ∧ '=' ∉ m.start_time.data ∧
      '=' ∉ m.home_score.data ∧ '=' ∉ m.away_score.data) →
      ∀ url ∈ affiliateUrls,
        ¬ strContainsP (generate_facebook_teaser m post_type) url) := by
  constructor
  · intro url hurl
    have h3 : url = "https://stake.com/?c=GlobalScoreUpdates" ∨
        url = "https://linebet.com?bf=695d695c66d7a_13053616523" ∨
        url = "https://ma-1xbet.com?bf=695d66e22c1b5_7531017325" := by
      simpa [affiliateUrls, AFFILIATE_LINKS] using hurl
    rcases h3 with h | h | h <;> subst h <;>
      exact tg_contains_of_infix_block m _ (by decide) (by decide) (by decide)
  · rintro ⟨hh, ha, hc, hst, hhs, has⟩ url hurl
    have heq : '=' ∈ url.data := by
      have h3 : url = "https://stake.com/?c=GlobalScoreUpdates" ∨
          url = "https://linebet.com?bf=695d695c66d7a_13053616523" ∨
          url = "https://ma-1xbet.com?bf=695d66e22c1b5_7531017325" := by
        simpa [affiliateUrls, AFFILIATE_LINKS] using hurl
      rcases h3 with h | h | h <;> subst h <;> decide
    have hnot : '=' ∉ (generate_facebook_teaser m post_type).data := by
      unfold generate_facebook_teaser
      split_ifs <;>
        · simp only [String.data_append]
          repeat' apply not_mem_append_of
          all_goals first | assumption | decide
    exact not_infix_of_mem_not_mem heq hnot

/-- A match whose home-team name embeds the first affiliate URL. -/
def mUrlName : Match :=
  { mArsenal with home_team := "https://stake.com/?c=GlobalScoreUpdates" }

/-- An infix of the left part is an infix of the whole concatenation. -/
theorem infix_append_right_of {α : Type} {u A : List α} (B : List α)
    (h : u <:+: A) : u <:+: A ++ B := by
  obtain ⟨x, y, hxy⟩ := h
  exact ⟨x, y ++ B, by rw [← hxy]; simp⟩

/-- C9 counterexample: the claim quantifies over every match, but a match
whose team name itself embeds an affiliate URL makes the Facebook teaser
contain that URL — the teaser template interpolates provider-controlled
fields verbatim. -/
theorem c9_fb_contains_url_via_team_name :
    strContainsP (generate_facebook_teaser mUrlName "upcoming")
      "https://stake.com/?c=GlobalScoreUpdates" := by
  unfold strContainsP generate_facebook_teaser mUrlName mArsenal
  rw [if_pos rfl]
  simp only [String.data_append]
  iterate 9 apply infix_append_right_of
  exact (List.suffix_append _ _).isInfix

/-- C9 witness: on a concrete benign match, the Telegram message contains the
first affiliate URL and the Facebook teaser does not. -/
theorem c9_affiliates_telegram_only_witness :
    strContainsP (generate_telegram_upcoming_match mArsenal)
      "https://stake.com/?c=GlobalScoreUpdates" ∧
    ¬ strContainsP (generate_facebook_teaser mArsenal "upcoming")
      "https://stake.com/?c=GlobalScoreUpdates" :=
  ⟨(c9_affiliates_telegram_only mArsenal "upcoming").1 _ (by decide),
   (c9_affiliates_telegram_only mArsenal "upcoming").2
     ⟨by decide, by decide, by decide, by decide, by decide, by decide⟩
     _ (by decide)⟩

/-! ## C2 — idempotent settlement -/

/-- `settleOne` never inserts or rewrites entries: any entry of the output
ledger was already in the input ledger. -/
theorem settleOne_mono (led : Ledger) (f : Fixture) (k : String × String)
    (p : Pick) (h : (settleOne led f).2 k = some p) : led k = some p := by
  unfold settleOne at h
  by_cases hf : f.finished
  · rw [if_pos hf] at h
    cases hl : led (f.home, f.away) with
    | none => rw [hl] at h; exact h
    | some q =>
      rw [hl] at h
      dsimp only at h
      by_cases hw : pickWins q f
      · rw [if_pos hw] at h
        simp only at h
        by_cases hk : k = (f.home, f.away)
        · rw [if_pos hk] at h; exact absurd h (by simp)
        · rw [if_neg hk] at h; exact h
      · rw [if_neg hw] at h; exact h
  · rw [if_neg hf] at h; exact h

/-- `settle` never inserts or rewrites entries. -/
theorem settle_mono (fs : List Fixture) (led : Ledger) (k : String × String)
    (p : Pick) (h : (settle led fs).2 k = some p) : led k = some p := by
  induction fs generalizing led with
  | nil => simpa [settle] using h
  | cons f t ih =>
    simp only [settle] at h
    exact settleOne_mono led f k p (ih _ h)

/-- `settleOne` is a no-op on an unfinished match. -/
theorem settleOne_noop_of_unfinished (L : Ledger) (f : Fixture)
    (h : f.finished = false) : settleOne L f = (none, L) := by
  unfold settleOne
  rw [h]
  simp

/-- `settleOne` is a no-op when the ledger has no entry for the match. -/
theorem settleOne_noop_of_none (L : Ledger) (f : Fixture)
    (h : L (f.home, f.away) = none) : settleOne L f = (none, L) := by
  unfold settleOne
  by_cases hfin : f.finished
  · rw [if_pos hfin, h]
  · rw [if_neg hfin]

/-- `settleOne` is a no-op when the recorded pick does not win. -/
theorem settleOne_noop_of_lose (L : Ledger) (f : Fixture) (p : Pick)
    (h : L (f.home, f.away) = some p) (hw : pickWins p f = false) :
    settleOne L f = (none, L) := by
  unfold settleOne
  by_cases hfin : f.finished
  · rw [if_pos hfin, h]
    dsimp only
    rw [hw]
    simp
  · rw [if_neg hfin]

/-- After a settlement pass, re-settling any of its matches is a no-op: the
entry is gone (if it won) or the win predicate still fails on it. -/
theorem settle_stable (led : Ledger) (fs : List Fixture) :
    ∀ f ∈ fs, settleOne (settle led fs).2 f = (none, (settle led fs).2) := by
  induction fs generalizing led with
  | nil => intro f hf; exact absurd hf (by simp)
  | cons a t ih =>
    intro f hf
    simp only [settle]
    rcases List.mem_cons.mp hf with rfl | hft
    · by_cases hfin : f.finished
      · cases hk : led (f.home, f.away) with
        | none =>
          have hled1 : (settleOne led f).2 = led :=
            congrArg Prod.snd (settleOne_noop_of_none led f hk)
          apply settleOne_noop_of_none
          cases hL : (settle (settleOne led f).2 t).2 (f.home, f.away) with
          | none => rfl
          | some p =>
            have hmem := settle_mono t _ _ _ hL
            rw [hled1, hk] at hmem
            exact absurd hmem (by simp)
        | some p =>
          by_cases hw : pickWins p f
          · have hled1 : (settleOne led f).2 (f.home, f.away) = none := by
              unfold settleOne
              rw [if_pos hfin, hk]
              dsimp only
              rw [if_pos hw]
              simp
            apply settleOne_noop_of_none
            cases hL : (settle (settleOne led f).2 t).2 (f.home, f.away) with
            | none => rfl
            | some q =>
              have hmem := settle_mono t _ _ _ hL
              rw [hled1] at hmem
              exact absurd hmem (by simp)
          · have hled1 : (settleOne led f).2 = led := by
              unfold settleOne
              rw [if_pos hfin, hk]
              dsimp only
              rw [if_neg hw]
            cases hL : (settle (settleOne led f).2 t).2 (f.home, f.away) with
            | none => exact settleOne_noop_of_none _ f hL
            | some q =>
              have hmem := settle_mono t _ _ _ hL
              rw [hled1, hk] at hmem
              injection hmem with hq
              subst hq
              exact settleOne_noop_of_lose _ f p hL (by simpa using hw)
      · exact settleOne_noop_of_unfinished _ f (by simpa using hfin)
    · exact ih (settleOne led a).2 f hft

/-- Settlement over matches that are all no-ops returns no wins and the
unchanged ledger. -/
theorem settle_of_stable (L : Ledger) (fs : List Fixture)
    (h : ∀ f ∈ fs, settleOne L f = (none, L)) : settle L fs = ([], L) := by
  induction fs with
  | nil => rfl
  | cons a t ih =>
    have ha := h a (List.mem_cons_self a t)
    simp only [settle, ha]
    rw [ih (fun f hf => h f (List.mem_cons_of_mem a hf))]
    simp

/-- C2: settlement is idempotent. Running `settle` a second time with the same
finished-match set reports no wins at all (so each win of the first pass is
reported exactly once) and deletes nothing: entries removed by the first pass
are simply absent, and surviving entries still fail their win predicate. -/
theorem c2_settle_idempotent (led : Ledger) (fs : List Fixture) :
    settle (settle led fs).2 fs = ([], (settle led fs).2) :=
  settle_of_stable _ fs (settle_stable led fs)
